import Mathlib

/-!
Verification of the config-sync apply/prune supervisor, remediator watch
factory, declared-state namespace safety check, and resource-group condition
update against their natural-language specification.

The event-processing supervisor (`processApplyEvent`, `processPruneEvent`,
`processWaitEvent`, the event loop of `Apply`) and `deletesAllNamespaces` are
modelled from the specification, since only their tests appear in the source
tree; `updateCondition`, `isConditionEqual`,
`WatcherFactoryFromListerWatcherFactory` and `KptManagementConflictError` are
translated directly from the Go source.
-/

set_option autoImplicit false

namespace ConfigSync

/-- A Kubernetes group/kind pair (schema.GroupKind). -/
structure GroupKind where
  group : String
  kind : String
deriving DecidableEq, Repr

/-- A Kubernetes group/version/kind (schema.GroupVersionKind). -/
structure GVK where
  group : String
  version : String
  kind : String
deriving DecidableEq, Repr

/-- GroupKind of a GVK, dropping the version. -/
def GVK.groupKind (g : GVK) : GroupKind :=
  { group := g.group, kind := g.kind }

/-- Namespaced object key (client.ObjectKey). -/
structure ObjectKey where
  nspace : String
  name : String
deriving DecidableEq, Repr

/-- Universal object identity: group, kind, namespace, name (core.ID). -/
structure ID where
  groupKind : GroupKind
  key : ObjectKey
deriving DecidableEq, Repr

/-- String-keyed metadata map, used for both annotations and labels. -/
abbrev MetaMap := List (String × String)

/-- First-match lookup in a metadata map (core.GetAnnotation / GetLabel). -/
def metaLookup : MetaMap → String → Option String
  | [], _ => none
  | (k, v) :: rest, key => if k = key then some v else metaLookup rest key

/-- Remove every entry whose key is in `keys` (core.RemoveAnnotations /
core.RemoveLabels). -/
def removeKeys : MetaMap → List String → MetaMap
  | [], _ => []
  | (k, v) :: rest, keys =>
    if k ∈ keys then removeKeys rest keys
    else (k, v) :: removeKeys rest keys

/-- A typed cluster object: identity plus metadata plus all remaining fields,
the latter kept abstract as a key-value list (unstructured.Unstructured). -/
structure KubeObject where
  gvk : GVK
  nspace : String
  name : String
  annots : MetaMap
  labels : MetaMap
  fields : List (String × String)
deriving DecidableEq, Repr

/-- Identity of an object (core.IDOf). -/
def KubeObject.id (o : KubeObject) : ID :=
  { groupKind := o.gvk.groupKind, key := { nspace := o.nspace, name := o.name } }

/-- GroupKind of the core/v1 Namespace type (kinds.Namespace). -/
def namespaceGroupKind : GroupKind :=
  { group := "", kind := "Namespace" }

/-- Boolean test used to select Namespace objects from a snapshot. -/
def isNamespaceObject (o : KubeObject) : Bool :=
  o.gvk.groupKind = namespaceGroupKind

/-- The Namespace objects of a declared snapshot, in declaration order. -/
def namespacesOf : List KubeObject → List KubeObject
  | [] => []
  | o :: rest =>
    if isNamespaceObject o then o :: namespacesOf rest else namespacesOf rest

/-- Error returned by the declared-state namespace safety check. -/
inductive DeclaredError where
  | deleteAllNamespacesError (previousNamespaces : List String)
deriving DecidableEq, Repr

/-- Modelled from the spec: the namespace-safety check used by UpdateDeclared
(`deletesAllNamespaces`, whose implementation is absent from the source tree;
only TestDontDeleteAllNamespaces exercises it). Per the spec, a single sync
pass may never prune 100% of previously declared namespace objects if more
than one namespace object previously existed, so the check errors exactly when
the previous snapshot holds more than one Namespace and the current snapshot
holds none. -/
def deletesAllNamespaces (previous current : List KubeObject) : Option DeclaredError :=
  let prevNs := namespacesOf previous
  let curNs := namespacesOf current
  if 1 < prevNs.length ∧ curNs.length = 0 then
    some (.deleteAllNamespacesError (prevNs.map (fun o => o.name)))
  else
    none

/-- A status condition on a ResourceGroup (v1alpha1.Condition); the
LastTransitionTime is modelled as an abstract timestamp. -/
structure Condition where
  condType : String
  condStatus : String
  reason : String
  message : String
  lastTransitionTime : Nat
deriving DecidableEq, Repr

/-- isConditionEqual returns true if a == b, ignoring the LastTransitionTime. -/
def isConditionEqual (a b : Condition) : Bool :=
  a.condType = b.condType &&
    a.condStatus = b.condStatus &&
    a.reason = b.reason &&
    a.message = b.message

/-- updateCondition modifies and returns a list of conditions to update the
specified condition, avoiding an update of the LastTransitionTime when there
is no other change: the first condition of the same type is replaced when it
differs, kept when it is equal up to LastTransitionTime, and the new condition
is appended when no condition of its type exists. -/
def updateCondition : List Condition → Condition → List Condition
  | [], newCondition => [newCondition]
  | condition :: rest, newCondition =>
    if condition.condType = newCondition.condType then
      (if isConditionEqual condition newCondition then condition else newCondition) :: rest
    else
      condition :: updateCondition rest newCondition

/-- Sync scope of a reconciler (declared.Scope): a namespace name for a
RepoSync, or the distinguished root scope for a RootSync. -/
abbrev Scope := String

/-- The root scope sentinel (declared.RootScope). -/
def rootScope : Scope := ":root"

/-- List options passed to a list-then-watch call (metav1.ListOptions,
restricted to the fields the watcher touches plus one untouched field for
frame reasoning). -/
structure ListOptions where
  labelSelector : String
  resourceVersion : String
deriving DecidableEq, Repr

/-- A label selector, carrying its string form (labels.Selector). -/
structure LabelSelector where
  selStr : String
deriving DecidableEq, Repr

/-- The observable effect of one started watch: which lister-watcher was built
(gvk and namespace handed to the ListerWatcherFactory) and the options passed
to ListAndWatch. -/
structure WatchCall where
  gvk : GVK
  nspace : String
  options : ListOptions
deriving DecidableEq, Repr

/-- A start-watch function (watch.WatchFunc), as a map from list options to
the watch call it performs. -/
abbrev WatchFunc := ListOptions → WatchCall

/-- Options needed to create a watcher (watcherConfig), restricted to the
fields read by WatcherFactoryFromListerWatcherFactory. -/
structure WatcherConfig where
  gvk : GVK
  scope : Scope
  syncName : String
  startWatch : Option WatchFunc
  labelSelector : Option LabelSelector
  commit : String

/-- A built watch.Runnable; NewFiltered stores the configuration it was
given. -/
structure Runnable where
  cfg : WatcherConfig

/-- The default start-watch closure installed by
WatcherFactoryFromListerWatcherFactory when cfg.startWatch is unset: a
RootSync watches at the cluster scope or all namespaces (empty namespace),
a RepoSync only watches at the namespace scope; a non-nil label selector's
string form is set on the list options before ListAndWatch. -/
def defaultStartWatch (gvk : GVK) (scope : Scope) (labelSelector : Option LabelSelector) :
    WatchFunc :=
  fun options =>
    let nspace := if scope ≠ rootScope then scope else ""
    let options' :=
      match labelSelector with
      | some sel => { options with labelSelector := sel.selStr }
      | none => options
    { gvk := gvk, nspace := nspace, options := options' }

/-- WatcherFactoryFromListerWatcherFactory builds the Runnable for a watcher
configuration, installing the default list-then-watch function when none is
set (the Go version also returns an always-nil status.Error). -/
def watcherFactoryFromListerWatcherFactory (cfg : WatcherConfig) : Runnable :=
  let cfg' :=
    match cfg.startWatch with
    | none =>
      { cfg with startWatch := some (defaultStartWatch cfg.gvk cfg.scope cfg.labelSelector) }
    | some _ => cfg
  { cfg := cfg' }

/-- Actuation strategy of one object within a pass (actuation.ActuationStrategy):
apply (create/update) or delete (prune). Apply is the zero value. -/
inductive ActuationStrategy where
  | apply
  | delete
deriving DecidableEq, Repr

/-- Actuation outcome of one object within a pass (actuation.ActuationStatus);
pending is the zero value. -/
inductive ActuationStatus where
  | pending
  | succeeded
  | failed
  | skipped
deriving DecidableEq, Repr

/-- Reconcile outcome of one object within a pass (actuation.ReconcileStatus);
pending is the zero value. -/
inductive ReconcileStatus where
  | pending
  | succeeded
  | failed
  | timeout
  | skipped
deriving DecidableEq, Repr

/-- Per-object status tracked across the life of one pass (ObjectStatus). -/
structure ObjectStatus where
  strategy : ActuationStrategy := .apply
  actuation : ActuationStatus := .pending
  reconcile : ReconcileStatus := .pending
deriving DecidableEq, Repr

/-- Map from object identity to its status for one pass (ObjectStatusMap),
modelled as an association list with unique keys maintained by osmSet. -/
abbrev ObjectStatusMap := List (ID × ObjectStatus)

/-- Lookup of an object's status (first match). -/
def osmLookup : ObjectStatusMap → ID → Option ObjectStatus
  | [], _ => none
  | (i, s) :: rest, id => if i = id then some s else osmLookup rest id

/-- Set an object's status, replacing the first existing entry or appending. -/
def osmSet : ObjectStatusMap → ID → ObjectStatus → ObjectStatusMap
  | [], id, st => [(id, st)]
  | (i, s) :: rest, id, st =>
    if i = id then (id, st) :: rest else (i, s) :: osmSet rest id st

/-- Update only the Reconcile field of an object's status, creating a
zero-valued entry first when the object has no entry yet (processWaitEvent's
map handling). -/
def osmSetReconcile (m : ObjectStatusMap) (id : ID) (r : ReconcileStatus) :
    ObjectStatusMap :=
  match osmLookup m id with
  | some s => osmSet m id { s with reconcile := r }
  | none => osmSet m id { strategy := .apply, actuation := .pending, reconcile := r }

/-- Append-only event counters for one pass (stats.SyncStats). -/
structure SyncStats where
  applyPendingCount : Nat := 0
  applySuccessfulCount : Nat := 0
  applyFailedCount : Nat := 0
  applySkippedCount : Nat := 0
  prunePendingCount : Nat := 0
  pruneSuccessfulCount : Nat := 0
  pruneFailedCount : Nat := 0
  pruneSkippedCount : Nat := 0
  waitPendingCount : Nat := 0
  waitSuccessfulCount : Nat := 0
  waitFailedCount : Nat := 0
  waitTimeoutCount : Nat := 0
  waitSkippedCount : Nat := 0
  errorEvents : Nat := 0
deriving DecidableEq, Repr

/-- Total number of events counted by the stats; every processed event adds
exactly one. -/
def SyncStats.total (s : SyncStats) : Nat :=
  s.applyPendingCount + s.applySuccessfulCount + s.applyFailedCount +
    s.applySkippedCount + s.prunePendingCount + s.pruneSuccessfulCount +
    s.pruneFailedCount + s.pruneSkippedCount + s.waitPendingCount +
    s.waitSuccessfulCount + s.waitFailedCount + s.waitTimeoutCount +
    s.waitSkippedCount + s.errorEvents

/-- Statuses of apply events emitted by the engine (event.ApplyEventStatus). -/
inductive ApplyEventStatus where
  | pending
  | successful
  | failed
  | skipped
deriving DecidableEq, Repr

/-- Statuses of prune events emitted by the engine (event.PruneEventStatus). -/
inductive PruneEventStatus where
  | pending
  | successful
  | failed
  | skipped
deriving DecidableEq, Repr

/-- Statuses of wait events emitted by the engine (event.WaitEventStatus). -/
inductive WaitEventStatus where
  | reconcilePending
  | reconcileSuccessful
  | reconcileFailed
  | reconcileTimeout
  | reconcileSkipped
deriving DecidableEq, Repr

/-- Typed cause attached to a failed or skipped engine event, covering the
causes the supervisor dispatches on (cli-utils apply/filter/inventory error
types plus the etcd request-too-large error). -/
inductive EventCause where
  | genericError (msg : String)
  | unknownTypeError (msg : String)
  | applyRunError (msg : String)
  | policyPreventedActuation
  | dependencyPreventedActuation (msg : String)
  | namespaceInUse (nspace : String)
  | preventDeletionLifecycle
  | requestTooLarge (msg : String)
deriving DecidableEq, Repr

/-- Rendered message of an event cause. -/
def causeMsg : Option EventCause → String
  | some (.genericError m) => m
  | some (.unknownTypeError m) => m
  | some (.applyRunError m) => m
  | some .policyPreventedActuation => "inventory policy prevented actuation"
  | some (.dependencyPreventedActuation m) => m
  | some (.namespaceInUse n) => String.append "namespace still in use: " n
  | some .preventDeletionLifecycle => "annotation prevented deletion"
  | some (.requestTooLarge m) => m
  | none => ""

/-- One event of the engine's stream (event.Event as a tagged union). -/
inductive Event where
  | applyEv (status : ApplyEventStatus) (obj : KubeObject) (cause : Option EventCause)
  | pruneEv (status : PruneEventStatus) (obj : KubeObject) (cause : Option EventCause)
  | waitEv (status : WaitEventStatus) (id : ID)
  | errorEv (cause : EventCause)
deriving DecidableEq, Repr

/-- The closed error taxonomy of a pass, each variant carrying the identities
the spec requires (status.Error kinds). -/
inductive SyncError where
  | applyError (id : ID) (sourcePath : String) (gvk : GVK) (cause : String)
  | pruneError (id : ID) (cause : String)
  | skipError (id : ID) (strategy : ActuationStrategy) (msg : String)
  | managementConflictError (id : ID) (conflictingManager : String)
  | largeResourceGroupError (syncId : ID) (cause : String)
  | waitError (id : ID) (msg : String)
  | applierError (msg : String)
deriving DecidableEq, Repr

/-- Annotation key recording the object's manager (metadata.ResourceManagerKey). -/
def resourceManagerKey : String := "configsync.gke.io/manager"

/-- Annotation key recording the source path (metadata.SourcePathAnnotationKey). -/
def sourcePathKey : String := "configsync.gke.io/source-path"

/-- Annotation key of the management mode (metadata.ManagementModeAnnotationKey). -/
def managementModeKey : String := "configmanagement.gke.io/managed"

/-- Annotation key of the resource id (metadata.ResourceIDKey). -/
def resourceIDKey : String := "configsync.gke.io/resource-id"

/-- Annotation key of the owning inventory (metadata.OwningInventoryKey). -/
def owningInventoryKey : String := "config.k8s.io/owning-inventory"

/-- Annotation key of the last sync token (metadata.SyncTokenAnnotationKey). -/
def syncTokenKey : String := "configmanagement.gke.io/token"

/-- Label key of the managing tool (metadata.ManagedByKey). -/
def managedByKey : String := "app.kubernetes.io/managed-by"

/-- Label key of the system label (metadata.SystemLabel). -/
def systemLabelKey : String := "configmanagement.gke.io/system"

/-- Label key of the arch label (metadata.ArchLabel). -/
def archLabelKey : String := "configmanagement.gke.io/arch"

/-- Annotation key of the lifecycle deletion policy
(common.LifecycleDeleteAnnotation); its prevent-deletion value triggers the
abandon path and the key itself is never stripped. -/
def lifecycleDeleteKey : String := "client.lifecycle.config.k8s.io/deletion"

/-- The management-owned annotation keys stripped on abandon. -/
def managementAnnotKeys : List String :=
  [managementModeKey, resourceIDKey, resourceManagerKey, owningInventoryKey,
    syncTokenKey]

/-- The management-owned label keys stripped on abandon. -/
def managementLabelKeys : List String :=
  [managedByKey, systemLabelKey, archLabelKey]

/-- Modelled from the spec: abandoning a live object strips all management
metadata (manager/ownership/management-mode annotations and labels) and leaves
user-authored fields intact; the implementation (abandonObject) is absent from
the source tree and only exercised by TestApply's abandon case. -/
def stripConfigSyncMetadata (o : KubeObject) : KubeObject :=
  { o with
    annots := removeKeys o.annots managementAnnotKeys
    labels := removeKeys o.labels managementLabelKeys }

/-- KptManagementConflictError builds the management-conflict error for a
resource illegally declared in multiple repositories, naming the manager
recorded in the resource's manager annotation (empty when absent). -/
def KptManagementConflictError (resource : KubeObject) : SyncError :=
  let newManager := (metaLookup resource.annots resourceManagerKey).getD ""
  .managementConflictError resource.id newManager

/-- A cached entry of the mutation-ignore set: the last-observed manifest, or
a tombstone recording that the object was deleted while ignored
(queue.Deleted). -/
inductive IgnoredEntry where
  | live (o : KubeObject)
  | tombstone (o : KubeObject)
deriving DecidableEq, Repr

/-- Remove every ignore-set entry with the given identity. -/
def removeIgnored : List (ID × IgnoredEntry) → ID → List (ID × IgnoredEntry)
  | [], _ => []
  | (i, e) :: rest, id =>
    if i = id then removeIgnored rest id else (i, e) :: removeIgnored rest id

/-- The declared-state store (declared.Resources): the declared snapshot plus
the separate mutation-ignore set. -/
structure Resources where
  declared : List (ID × KubeObject)
  ignored : List (ID × IgnoredEntry)
deriving DecidableEq, Repr

/-- Identities currently held in the mutation-ignore set (IgnoredObjects). -/
def Resources.ignoredIds (r : Resources) : List ID :=
  r.ignored.map (fun e => e.1)

/-- Evict an object from the mutation-ignore set. -/
def evictIgnored (r : Resources) (id : ID) : Resources :=
  { r with ignored := removeIgnored r.ignored id }

/-- The live cluster, as a map from identity to live object. -/
abbrev Cluster := List (ID × KubeObject)

/-- Lookup of a live object (first match). -/
def clusterLookup : Cluster → ID → Option KubeObject
  | [], _ => none
  | (i, o) :: rest, id => if i = id then some o else clusterLookup rest id

/-- Abandon the live object with the given identity: strip its management
metadata in place, leaving every other live object untouched. -/
def abandonInCluster : Cluster → ID → Cluster
  | [], _ => []
  | (i, o) :: rest, id =>
    if i = id then (i, stripConfigSyncMetadata o) :: abandonInCluster rest id
    else (i, o) :: abandonInCluster rest id

/-- State threaded through one pass of the supervisor: the per-object status
map, the event counters, the declared-state store, the live cluster, and the
set of resources whose type was unknown to the cluster. -/
structure PassState where
  statusMap : ObjectStatusMap
  stats : SyncStats
  resources : Resources
  cluster : Cluster
  unknownTypeResources : List ID
deriving DecidableEq, Repr

/-- Initial state of a pass: empty status map and zeroed counters. -/
def initialState (resources : Resources) (cluster : Cluster) : PassState :=
  { statusMap := [], stats := {}, resources := resources, cluster := cluster,
    unknownTypeResources := [] }

/-- Actuation outcome recorded for an apply event status. -/
def actuationOfApply : ApplyEventStatus → ActuationStatus
  | .pending => .pending
  | .successful => .succeeded
  | .failed => .failed
  | .skipped => .skipped

/-- Actuation outcome recorded for a prune event status. -/
def actuationOfPrune : PruneEventStatus → ActuationStatus
  | .pending => .pending
  | .successful => .succeeded
  | .failed => .failed
  | .skipped => .skipped

/-- Reconcile outcome recorded for a wait event status. -/
def reconcileOfWait : WaitEventStatus → ReconcileStatus
  | .reconcilePending => .pending
  | .reconcileSuccessful => .succeeded
  | .reconcileFailed => .failed
  | .reconcileTimeout => .timeout
  | .reconcileSkipped => .skipped

/-- Source path recorded in the object's source-path annotation (empty when
absent). -/
def sourcePathOf (o : KubeObject) : String :=
  (metaLookup o.annots sourcePathKey).getD ""

/-- Modelled from the spec: the error surfaced for one apply event. Failed
builds an ApplyError carrying the object identity, source path, GVK and the
underlying cause; Skipped with a management-conflict cause builds the
ManagementConflictError naming the detected foreign manager; Skipped with a
dependency cause builds a SkipError; other statuses surface nothing. -/
def applyEventError (status : ApplyEventStatus) (obj : KubeObject)
    (cause : Option EventCause) : Option SyncError :=
  match status with
  | .failed => some (.applyError obj.id (sourcePathOf obj) obj.gvk (causeMsg cause))
  | .skipped =>
    match cause with
    | some .policyPreventedActuation => some (KptManagementConflictError obj)
    | some (.dependencyPreventedActuation msg) => some (.skipError obj.id .apply msg)
    | _ => none
  | _ => none

/-- Modelled from the spec: the error surfaced for one prune event. Failed
builds a PruneError; Skipped because the namespace is still in use or because
of a blocked dependent builds a SkipError; Skipped because of the
prevent-deletion lifecycle annotation (the abandon path) surfaces no error. -/
def pruneEventError (status : PruneEventStatus) (obj : KubeObject)
    (cause : Option EventCause) : Option SyncError :=
  match status with
  | .failed => some (.pruneError obj.id (causeMsg cause))
  | .skipped =>
    match cause with
    | some (.namespaceInUse n) =>
      some (.skipError obj.id .delete (causeMsg (some (.namespaceInUse n))))
    | some (.dependencyPreventedActuation msg) =>
      some (.skipError obj.id .delete msg)
    | _ => none
  | _ => none

/-- Modelled from the spec: the error surfaced for one wait event.
ReconcileFailed and ReconcileTimeout are promoted to a reportable error during
a destroy pass only; during a normal apply pass they surface nothing. -/
def waitEventError (status : WaitEventStatus) (id : ID) (isDestroy : Bool) :
    Option SyncError :=
  match status with
  | .reconcileFailed =>
    if isDestroy then some (.waitError id "reconcile failed") else none
  | .reconcileTimeout =>
    if isDestroy then some (.waitError id "reconcile timeout") else none
  | _ => none

/-- Modelled from the spec: the error surfaced for one engine-level error
event. A request-too-large failure on the inventory object is mapped to a
dedicated error carrying the sync identity; any other engine failure is a
generic applier error. -/
def errorEventError (invID : ID) (cause : EventCause) : Option SyncError :=
  match cause with
  | .requestTooLarge msg => some (.largeResourceGroupError invID msg)
  | c => some (.applierError (causeMsg (some c)))

/-- Counter update for one apply event. -/
def addApplyStat (s : SyncStats) : ApplyEventStatus → SyncStats
  | .pending => { s with applyPendingCount := s.applyPendingCount + 1 }
  | .successful => { s with applySuccessfulCount := s.applySuccessfulCount + 1 }
  | .failed => { s with applyFailedCount := s.applyFailedCount + 1 }
  | .skipped => { s with applySkippedCount := s.applySkippedCount + 1 }

/-- Counter update for one prune event. -/
def addPruneStat (s : SyncStats) : PruneEventStatus → SyncStats
  | .pending => { s with prunePendingCount := s.prunePendingCount + 1 }
  | .successful => { s with pruneSuccessfulCount := s.pruneSuccessfulCount + 1 }
  | .failed => { s with pruneFailedCount := s.pruneFailedCount + 1 }
  | .skipped => { s with pruneSkippedCount := s.pruneSkippedCount + 1 }

/-- Counter update for one wait event. -/
def addWaitStat (s : SyncStats) : WaitEventStatus → SyncStats
  | .reconcilePending => { s with waitPendingCount := s.waitPendingCount + 1 }
  | .reconcileSuccessful => { s with waitSuccessfulCount := s.waitSuccessfulCount + 1 }
  | .reconcileFailed => { s with waitFailedCount := s.waitFailedCount + 1 }
  | .reconcileTimeout => { s with waitTimeoutCount := s.waitTimeoutCount + 1 }
  | .reconcileSkipped => { s with waitSkippedCount := s.waitSkippedCount + 1 }

/-- Modelled from the spec: processing of one apply event (processApplyEvent).
The event counter and the object's status (Strategy=Apply, Actuation from the
event status) are recorded; a failed apply additionally evicts the object from
the mutation-ignore set and records an unknown-type resource when the cause is
an unknown-type error. Returns the updated state and the surfaced error. -/
def processApplyEvent (st : PassState) (status : ApplyEventStatus)
    (obj : KubeObject) (cause : Option EventCause) : PassState × Option SyncError :=
  let st1 := { st with
    stats := addApplyStat st.stats status
    statusMap := osmSet st.statusMap obj.id
      { strategy := .apply, actuation := actuationOfApply status, reconcile := .pending } }
  let st2 :=
    match status with
    | .failed =>
      let stE := { st1 with resources := evictIgnored st1.resources obj.id }
      match cause with
      | some (.unknownTypeError _) =>
        { stE with unknownTypeResources := obj.id :: stE.unknownTypeResources }
      | _ => stE
    | _ => st1
  (st2, applyEventError status obj cause)

/-- Modelled from the spec: processing of one prune event (processPruneEvent).
The event counter and the object's status (Strategy=Delete) are recorded; a
successful prune evicts the deleted object from the mutation-ignore set; a
prune skipped because of the prevent-deletion lifecycle annotation abandons
the live object, stripping its management metadata in place without deleting
it. Returns the updated state and the surfaced error. -/
def processPruneEvent (st : PassState) (status : PruneEventStatus)
    (obj : KubeObject) (cause : Option EventCause) : PassState × Option SyncError :=
  let st1 := { st with
    stats := addPruneStat st.stats status
    statusMap := osmSet st.statusMap obj.id
      { strategy := .delete, actuation := actuationOfPrune status, reconcile := .pending } }
  let st2 :=
    match status with
    | .successful => { st1 with resources := evictIgnored st1.resources obj.id }
    | .skipped =>
      match cause with
      | some .preventDeletionLifecycle =>
        { st1 with cluster := abandonInCluster st1.cluster obj.id }
      | _ => st1
    | _ => st1
  (st2, pruneEventError status obj cause)

/-- Modelled from the spec: processing of one wait event (processWaitEvent).
The event counter is recorded and only the object's Reconcile status is
updated; ReconcileFailed and ReconcileTimeout surface an error during a
destroy pass only. -/
def processWaitEvent (st : PassState) (status : WaitEventStatus) (id : ID)
    (isDestroy : Bool) : PassState × Option SyncError :=
  ({ st with
      stats := addWaitStat st.stats status
      statusMap := osmSetReconcile st.statusMap id (reconcileOfWait status) },
    waitEventError status id isDestroy)

/-- Modelled from the spec: processing of one engine-level error event. Only
the error-event counter changes; no per-object status is recorded. -/
def processErrorEvent (invID : ID) (st : PassState) (cause : EventCause) :
    PassState × Option SyncError :=
  ({ st with stats := { st.stats with errorEvents := st.stats.errorEvents + 1 } },
    errorEventError invID cause)

/-- Dispatch of one engine event by type. -/
def processEvent (invID : ID) (isDestroy : Bool) (st : PassState) :
    Event → PassState × Option SyncError
  | .applyEv s o c => processApplyEvent st s o c
  | .pruneEv s o c => processPruneEvent st s o c
  | .waitEv s id => processWaitEvent st s id isDestroy
  | .errorEv c => processErrorEvent invID st c

/-- Modelled from the spec: the supervisor's event loop. One pass fully drains
its event stream in arrival order; every surfaced error is handed to the
event handler, which accumulates them all into one combined list. -/
def processEvents (invID : ID) (isDestroy : Bool) :
    List Event → PassState → PassState × List SyncError
  | [], st => (st, [])
  | ev :: rest, st =>
    let out := processEvent invID isDestroy st ev
    let fin := processEvents invID isDestroy rest out.1
    (fin.1, out.2.toList ++ fin.2)

/-- The error surfaced for one event, independent of the pass state. -/
def eventErrorOf (invID : ID) (isDestroy : Bool) : Event → Option SyncError
  | .applyEv s o c => applyEventError s o c
  | .pruneEv s o c => pruneEventError s o c
  | .waitEv s id => waitEventError s id isDestroy
  | .errorEv c => errorEventError invID c

lemma namespacesOf_length_eq_countP (l : List KubeObject) :
    (namespacesOf l).length = l.countP isNamespaceObject := by
  induction l with
  | nil => rfl
  | cons o rest ih =>
    by_cases h : isNamespaceObject o = true <;>
      simp [namespacesOf, List.countP_cons, h, ih]

/-- C1: for every pair of declared snapshots, the namespace-safety check
`deletesAllNamespaces` returns a DeleteAllNamespacesError if and only if the
previous snapshot contains more than one Namespace object and the current
snapshot contains zero Namespace objects; in every other case (including
pruning some but not all previously declared namespaces) it returns no
error. -/
theorem deletesAllNamespaces_error_iff (previous current : List KubeObject) :
    deletesAllNamespaces previous current ≠ none ↔
      1 < previous.countP isNamespaceObject ∧
        current.countP isNamespaceObject = 0 := by
  have hp := namespacesOf_length_eq_countP previous
  have hc := namespacesOf_length_eq_countP current
  simp only [deletesAllNamespaces]
  split <;> simp_all

lemma isConditionEqual_refl (c : Condition) : isConditionEqual c c = true := by
  simp [isConditionEqual]

lemma updateCondition_keep (l : List Condition) (c d : Condition)
    (hp : l.Pairwise (fun a b => a.condType ≠ b.condType))
    (hmem : d ∈ l) (htype : d.condType = c.condType)
    (heq : isConditionEqual d c = true) :
    updateCondition l c = l := by
  induction l with
  | nil => cases hmem
  | cons e rest ih =>
    rw [List.pairwise_cons] at hp
    rcases List.mem_cons.mp hmem with rfl | hmem'
    · simp [updateCondition, htype, heq]
    · have hne : e.condType ≠ c.condType := by
        intro hcontra
        exact hp.1 d hmem' (hcontra.trans htype.symm)
      simp [updateCondition, hne, ih hp.2 hmem']

lemma updateCondition_replace (l₁ l₂ : List Condition) (c d : Condition)
    (hp : (l₁ ++ d :: l₂).Pairwise (fun a b => a.condType ≠ b.condType))
    (htype : d.condType = c.condType)
    (hneq : isConditionEqual d c = false) :
    updateCondition (l₁ ++ d :: l₂) c = l₁ ++ c :: l₂ := by
  induction l₁ with
  | nil =>
    simp [updateCondition, htype, hneq]
  | cons e rest ih =>
    rw [List.cons_append, List.pairwise_cons] at hp
    have hne : e.condType ≠ c.condType := by
      intro hcontra
      exact hp.1 d (by simp) (hcontra.trans htype.symm)
    simp [updateCondition, hne, ih hp.2]

lemma updateCondition_append (l : List Condition) (c : Condition)
    (habs : ∀ d ∈ l, d.condType ≠ c.condType) :
    updateCondition l c = l ++ [c] := by
  induction l with
  | nil => rfl
  | cons e rest ih =>
    have hne : e.condType ≠ c.condType := habs e (by simp)
    simp [updateCondition, hne]
    exact ih (fun d hd => habs d (by simp [hd]))

lemma updateCondition_idem (l : List Condition) (c : Condition) :
    updateCondition (updateCondition l c) c = updateCondition l c := by
  induction l with
  | nil => simp [updateCondition, isConditionEqual_refl]
  | cons e rest ih =>
    by_cases htype : e.condType = c.condType
    · by_cases heq : isConditionEqual e c = true
      · simp [updateCondition, htype, heq]
      · simp [updateCondition, htype, heq, isConditionEqual_refl]
    · simp [updateCondition, htype, ih]

/-- C10: updateCondition is idempotent and transition-time-preserving. For
every condition list with at most one condition per type: when the list holds
a condition of the new condition's type equal to it up to LastTransitionTime,
the list is returned unchanged (the stored LastTransitionTime is kept); when
it holds one of the same type that differs, exactly that entry is replaced;
otherwise the new condition is appended; hence applying updateCondition twice
with the same condition yields the same list as applying it once. -/
theorem updateCondition_spec (l : List Condition) (c : Condition)
    (hp : l.Pairwise (fun a b => a.condType ≠ b.condType)) :
    (∀ d ∈ l, d.condType = c.condType → isConditionEqual d c = true →
        updateCondition l c = l) ∧
      (∀ l₁ d l₂, l = l₁ ++ d :: l₂ → d.condType = c.condType →
        isConditionEqual d c = false → updateCondition l c = l₁ ++ c :: l₂) ∧
      ((∀ d ∈ l, d.condType ≠ c.condType) → updateCondition l c = l ++ [c]) ∧
      updateCondition (updateCondition l c) c = updateCondition l c := by
  refine ⟨?_, ?_, ?_, updateCondition_idem l c⟩
  · intro d hmem htype heq
    exact updateCondition_keep l c d hp hmem htype heq
  · intro l₁ d l₂ hsplit htype hneq
    subst hsplit
    exact updateCondition_replace l₁ l₂ c d hp htype hneq
  · intro habs
    exact updateCondition_append l c habs

/-- Witness for C10 at a concrete input: a two-element condition list with
distinct types, updated with a condition differing from the first entry. -/
theorem updateCondition_spec_witness :
    ([⟨"Reconciling", "True", "r", "m", 3⟩,
        ⟨"Stalled", "False", "s", "m2", 4⟩] :
          List Condition).Pairwise (fun a b => a.condType ≠ b.condType) ∧
      (∀ d ∈ ([⟨"Reconciling", "True", "r", "m", 3⟩,
          ⟨"Stalled", "False", "s", "m2", 4⟩] : List Condition),
          d.condType = Condition.condType ⟨"Reconciling", "False", "r2", "m", 7⟩ →
          isConditionEqual d ⟨"Reconciling", "False", "r2", "m", 7⟩ = true →
          updateCondition [⟨"Reconciling", "True", "r", "m", 3⟩,
            ⟨"Stalled", "False", "s", "m2", 4⟩] ⟨"Reconciling", "False", "r2", "m", 7⟩ =
            [⟨"Reconciling", "True", "r", "m", 3⟩, ⟨"Stalled", "False", "s", "m2", 4⟩]) ∧
      (∀ l₁ d l₂,
        ([⟨"Reconciling", "True", "r", "m", 3⟩,
            ⟨"Stalled", "False", "s", "m2", 4⟩] : List Condition) = l₁ ++ d :: l₂ →
          d.condType = Condition.condType ⟨"Reconciling", "False", "r2", "m", 7⟩ →
          isConditionEqual d ⟨"Reconciling", "False", "r2", "m", 7⟩ = false →
          updateCondition [⟨"Reconciling", "True", "r", "m", 3⟩,
            ⟨"Stalled", "False", "s", "m2", 4⟩] ⟨"Reconciling", "False", "r2", "m", 7⟩ =
            l₁ ++ ⟨"Reconciling", "False", "r2", "m", 7⟩ :: l₂) ∧
      ((∀ d ∈ ([⟨"Reconciling", "True", "r", "m", 3⟩,
          ⟨"Stalled", "False", "s", "m2", 4⟩] : List Condition),
          d.condType ≠ Condition.condType ⟨"Reconciling", "False", "r2", "m", 7⟩) →
        updateCondition [⟨"Reconciling", "True", "r", "m", 3⟩,
          ⟨"Stalled", "False", "s", "m2", 4⟩] ⟨"Reconciling", "False", "r2", "m", 7⟩ =
          [⟨"Reconciling", "True", "r", "m", 3⟩,
            ⟨"Stalled", "False", "s", "m2", 4⟩] ++ [⟨"Reconciling", "False", "r2", "m", 7⟩]) ∧
      updateCondition
          (updateCondition [⟨"Reconciling", "True", "r", "m", 3⟩,
            ⟨"Stalled", "False", "s", "m2", 4⟩] ⟨"Reconciling", "False", "r2", "m", 7⟩)
          ⟨"Reconciling", "False", "r2", "m", 7⟩ =
        updateCondition [⟨"Reconciling", "True", "r", "m", 3⟩,
          ⟨"Stalled", "False", "s", "m2", 4⟩] ⟨"Reconciling", "False", "r2", "m", 7⟩ :=
  ⟨by decide,
    updateCondition_spec
      [⟨"Reconciling", "True", "r", "m", 3⟩, ⟨"Stalled", "False", "s", "m2", 4⟩]
      ⟨"Reconciling", "False", "r2", "m", 7⟩ (by decide)⟩

/-- C9: for every watcher configuration whose startWatch function is unset,
the Runnable built by WatcherFactoryFromListerWatcherFactory installs a
default watch that lists-then-watches in exactly the scope's namespace when
the scope is not the root scope, and across all namespaces (empty namespace
string) when the scope is the root scope; when the configuration carries a
non-nil label selector, that selector's string form is set on the list
options before listing. -/
theorem watcherFactory_default_watch (cfg : WatcherConfig) (options : ListOptions)
    (h : cfg.startWatch = none) :
    ∃ f, (watcherFactoryFromListerWatcherFactory cfg).cfg.startWatch = some f ∧
      (f options).gvk = cfg.gvk ∧
      (f options).nspace = (if cfg.scope = rootScope then "" else cfg.scope) ∧
      (∀ sel, cfg.labelSelector = some sel →
        (f options).options = { options with labelSelector := sel.selStr }) ∧
      (cfg.labelSelector = none → (f options).options = options) := by
  refine ⟨defaultStartWatch cfg.gvk cfg.scope cfg.labelSelector, ?_, ?_, ?_, ?_, ?_⟩
  · simp [watcherFactoryFromListerWatcherFactory, h]
  · rfl
  · by_cases hs : cfg.scope = rootScope <;> simp [defaultStartWatch, hs]
  · intro sel hsel
    simp [defaultStartWatch, hsel]
  · intro hnone
    simp [defaultStartWatch, hnone]

/-- Witness for C9 at a concrete configuration: a RepoSync-scoped Deployment
watch with no preset startWatch and a label selector. -/
theorem watcherFactory_default_watch_witness :
    (WatcherConfig.startWatch
        { gvk := { group := "apps", version := "v1", kind := "Deployment" },
          scope := "bookstore", syncName := "rs", startWatch := none,
          labelSelector := some { selStr := "app=books" }, commit := "c1" } = none) ∧
      (∃ f,
        (watcherFactoryFromListerWatcherFactory
            { gvk := { group := "apps", version := "v1", kind := "Deployment" },
              scope := "bookstore", syncName := "rs", startWatch := none,
              labelSelector := some { selStr := "app=books" },
              commit := "c1" }).cfg.startWatch = some f ∧
        (f { labelSelector := "", resourceVersion := "42" }).gvk =
          { group := "apps", version := "v1", kind := "Deployment" } ∧
        (f { labelSelector := "", resourceVersion := "42" }).nspace =
          (if ("bookstore" : Scope) = rootScope then "" else "bookstore") ∧
        (∀ sel,
          (some { selStr := "app=books" } : Option LabelSelector) = some sel →
          (f { labelSelector := "", resourceVersion := "42" }).options =
            { labelSelector := sel.selStr, resourceVersion := "42" }) ∧
        ((some { selStr := "app=books" } : Option LabelSelector) = none →
          (f { labelSelector := "", resourceVersion := "42" }).options =
            { labelSelector := "", resourceVersion := "42" })) :=
  ⟨rfl,
    watcherFactory_default_watch
      { gvk := { group := "apps", version := "v1", kind := "Deployment" },
        scope := "bookstore", syncName := "rs", startWatch := none,
        labelSelector := some { selStr := "app=books" }, commit := "c1" }
      { labelSelector := "", resourceVersion := "42" } rfl⟩

lemma osmLookup_osmSet (m : ObjectStatusMap) (i j : ID) (v : ObjectStatus) :
    osmLookup (osmSet m i v) j = if i = j then some v else osmLookup m j := by
  induction m with
  | nil => simp [osmSet, osmLookup]
  | cons kv rest ih =>
    obtain ⟨k, s⟩ := kv
    by_cases hk : k = i
    · subst hk
      by_cases hj : k = j <;> simp [osmSet, osmLookup, hj]
    · by_cases hj : k = j
      · subst hj
        have hij : ¬i = k := fun hcontra => hk hcontra.symm
        simp [osmSet, osmLookup, hk, hij]
      · simp [osmSet, osmLookup, hk, hj, ih]

/-- The status entry produced by a reconcile-only update: an existing entry
with only its Reconcile changed, or a fresh zero-valued entry. -/
def setReconcileEntry (o : Option ObjectStatus) (r : ReconcileStatus) : ObjectStatus :=
  match o with
  | some s => { s with reconcile := r }
  | none => { strategy := .apply, actuation := .pending, reconcile := r }

lemma setReconcileEntry_reconcile (o : Option ObjectStatus) (r : ReconcileStatus) :
    (setReconcileEntry o r).reconcile = r := by
  cases o <;> rfl

lemma osmLookup_osmSetReconcile (m : ObjectStatusMap) (i j : ID) (r : ReconcileStatus) :
    osmLookup (osmSetReconcile m i r) j =
      if i = j then some (setReconcileEntry (osmLookup m i) r) else osmLookup m j := by
  unfold osmSetReconcile setReconcileEntry
  cases h : osmLookup m i <;> simp [h, osmLookup_osmSet]

/-- C5: for every wait event with status ReconcileFailed or ReconcileTimeout,
processWaitEvent returns a reportable error if and only if the pass is a
destroy pass; during a normal apply pass the same event returns no error; in
both kinds of pass the event sets the object's Reconcile status (to
ReconcileFailed or ReconcileTimeout respectively) and updates the wait-event
stats. -/
theorem processWaitEvent_spec (st : PassState) (id : ID) (isDestroy : Bool) :
    ((processWaitEvent st .reconcileFailed id isDestroy).2 ≠ none ↔ isDestroy = true) ∧
      ((processWaitEvent st .reconcileTimeout id isDestroy).2 ≠ none ↔ isDestroy = true) ∧
      (∃ s, osmLookup (processWaitEvent st .reconcileFailed id isDestroy).1.statusMap id =
          some s ∧ s.reconcile = .failed) ∧
      (∃ s, osmLookup (processWaitEvent st .reconcileTimeout id isDestroy).1.statusMap id =
          some s ∧ s.reconcile = .timeout) ∧
      (processWaitEvent st .reconcileFailed id isDestroy).1.stats.waitFailedCount =
        st.stats.waitFailedCount + 1 ∧
      (processWaitEvent st .reconcileTimeout id isDestroy).1.stats.waitTimeoutCount =
        st.stats.waitTimeoutCount + 1 := by
  refine ⟨?_, ?_, ?_, ?_, ?_, ?_⟩
  · cases isDestroy <;> simp [processWaitEvent, waitEventError]
  · cases isDestroy <;> simp [processWaitEvent, waitEventError]
  · exact ⟨setReconcileEntry (osmLookup st.statusMap id) .failed,
      by simp [processWaitEvent, osmLookup_osmSetReconcile, reconcileOfWait],
      setReconcileEntry_reconcile _ _⟩
  · exact ⟨setReconcileEntry (osmLookup st.statusMap id) .timeout,
      by simp [processWaitEvent, osmLookup_osmSetReconcile, reconcileOfWait],
      setReconcileEntry_reconcile _ _⟩
  · simp [processWaitEvent, addWaitStat]
  · simp [processWaitEvent, addWaitStat]

/-- C7: for every engine-level error event whose cause is a request-too-large
error on the inventory object, the pass maps it to a dedicated error carrying
the sync (inventory) identity rather than any managed object's identity,
increments the error-event counter, and adds no entry to the ObjectStatusMap
(the returned status map is empty when the stream contains only that
event). -/
theorem errorEvent_requestTooLarge_spec (invID : ID) (msg : String)
    (resources : Resources) (cluster : Cluster) (st : PassState) :
    (processEvents invID false [.errorEv (.requestTooLarge msg)]
        (initialState resources cluster)).1.statusMap = [] ∧
      (processEvents invID false [.errorEv (.requestTooLarge msg)]
          (initialState resources cluster)).2 =
        [.largeResourceGroupError invID msg] ∧
      (processEvents invID false [.errorEv (.requestTooLarge msg)]
          (initialState resources cluster)).1.stats.errorEvents = 1 ∧
      (processErrorEvent invID st (.requestTooLarge msg)).1.statusMap = st.statusMap ∧
      (processErrorEvent invID st (.requestTooLarge msg)).1.stats.errorEvents =
        st.stats.errorEvents + 1 ∧
      (processErrorEvent invID st (.requestTooLarge msg)).2 =
        some (.largeResourceGroupError invID msg) :=
  ⟨rfl, rfl, rfl, rfl, rfl, rfl⟩

lemma not_mem_removeIgnored (l : List (ID × IgnoredEntry)) (id : ID) :
    id ∉ (removeIgnored l id).map (fun e => e.1) := by
  induction l with
  | nil => simp [removeIgnored]
  | cons kv rest ih =>
    obtain ⟨k, e⟩ := kv
    by_cases hk : k = id
    · simpa [removeIgnored, hk] using ih
    · simp only [removeIgnored, if_neg hk, List.map_cons, List.mem_cons]
      push_neg
      exact ⟨fun hcontra => hk hcontra.symm, ih⟩

/-- C3: for every object present in the mutation-ignore set, processing an
ApplyFailed event for that object removes it from the ignore set
(IgnoredObjects no longer contains it after the pass), while processing an
ApplySuccessful event for it leaves it in the ignore set; the ApplyFailed
event additionally yields an ApplyError carrying the object's identity,
source path, and GVK. -/
theorem processApplyEvent_ignoreSet (st : PassState) (obj : KubeObject)
    (cause cause2 : Option EventCause)
    (h : obj.id ∈ st.resources.ignoredIds) :
    obj.id ∉ (processApplyEvent st .failed obj cause).1.resources.ignoredIds ∧
      (processApplyEvent st .successful obj cause2).1.resources = st.resources ∧
      obj.id ∈ (processApplyEvent st .successful obj cause2).1.resources.ignoredIds ∧
      (processApplyEvent st .failed obj cause).2 =
        some (.applyError obj.id (sourcePathOf obj) obj.gvk (causeMsg cause)) := by
  have hres : (processApplyEvent st .failed obj cause).1.resources =
      evictIgnored st.resources obj.id := by
    simp only [processApplyEvent]
    split <;> rfl
  refine ⟨?_, rfl, h, rfl⟩
  rw [hres]
  exact not_mem_removeIgnored st.resources.ignored obj.id

/-- Witness for C3: a deployment object cached in the mutation-ignore set. -/
theorem processApplyEvent_ignoreSet_witness :
    (KubeObject.id
        { gvk := { group := "apps", version := "v1", kind := "Deployment" },
          nspace := "test-namespace", name := "random-name",
          annots := [(sourcePathKey, "namespaces/foo/role.yaml")], labels := [],
          fields := [] } ∈
      (initialState
          { declared := [],
            ignored := [(KubeObject.id
                { gvk := { group := "apps", version := "v1", kind := "Deployment" },
                  nspace := "test-namespace", name := "random-name",
                  annots := [(sourcePathKey, "namespaces/foo/role.yaml")],
                  labels := [], fields := [] },
              IgnoredEntry.live
                { gvk := { group := "apps", version := "v1", kind := "Deployment" },
                  nspace := "test-namespace", name := "random-name",
                  annots := [(sourcePathKey, "namespaces/foo/role.yaml")],
                  labels := [], fields := [] })] }
          []).resources.ignoredIds) ∧
      (KubeObject.id
          { gvk := { group := "apps", version := "v1", kind := "Deployment" },
            nspace := "test-namespace", name := "random-name",
            annots := [(sourcePathKey, "namespaces/foo/role.yaml")], labels := [],
            fields := [] } ∉
        (processApplyEvent
            (initialState
              { declared := [],
                ignored := [(KubeObject.id
                    { gvk := { group := "apps", version := "v1", kind := "Deployment" },
                      nspace := "test-namespace", name := "random-name",
                      annots := [(sourcePathKey, "namespaces/foo/role.yaml")],
                      labels := [], fields := [] },
                  IgnoredEntry.live
                    { gvk := { group := "apps", version := "v1", kind := "Deployment" },
                      nspace := "test-namespace", name := "random-name",
                      annots := [(sourcePathKey, "namespaces/foo/role.yaml")],
                      labels := [], fields := [] })] }
              [])
            .failed
            { gvk := { group := "apps", version := "v1", kind := "Deployment" },
              nspace := "test-namespace", name := "random-name",
              annots := [(sourcePathKey, "namespaces/foo/role.yaml")], labels := [],
              fields := [] }
            (some (.genericError "test error"))).1.resources.ignoredIds) := by
  have hmem :
      KubeObject.id
          { gvk := { group := "apps", version := "v1", kind := "Deployment" },
            nspace := "test-namespace", name := "random-name",
            annots := [(sourcePathKey, "namespaces/foo/role.yaml")], labels := [],
            fields := [] } ∈
        (initialState
            { declared := [],
              ignored := [(KubeObject.id
                  { gvk := { group := "apps", version := "v1", kind := "Deployment" },
                    nspace := "test-namespace", name := "random-name",
                    annots := [(sourcePathKey, "namespaces/foo/role.yaml")],
                    labels := [], fields := [] },
                IgnoredEntry.live
                  { gvk := { group := "apps", version := "v1", kind := "Deployment" },
                    nspace := "test-namespace", name := "random-name",
                    annots := [(sourcePathKey, "namespaces/foo/role.yaml")],
                    labels := [], fields := [] })] }
            []).resources.ignoredIds := by decide
  exact ⟨hmem,
    (processApplyEvent_ignoreSet _ _ (some (.genericError "test error"))
      (some (.genericError "test error")) hmem).1⟩

lemma metaLookup_removeKeys (m : MetaMap) (keys : List String) (k : String) :
    metaLookup (removeKeys m keys) k =
      if k ∈ keys then none else metaLookup m k := by
  induction m with
  | nil => simp [removeKeys, metaLookup]
  | cons kv rest ih =>
    obtain ⟨k₀, v⟩ := kv
    by_cases hmem : k₀ ∈ keys
    · by_cases hk : k₀ = k
      · subst hk
        simp [removeKeys, hmem, ih]
      · simp [removeKeys, hmem, metaLookup, hk, ih]
    · by_cases hk : k₀ = k
      · subst hk
        simp [removeKeys, hmem, metaLookup]
      · simp [removeKeys, hmem, metaLookup, hk, ih]

lemma clusterLookup_abandonInCluster (c : Cluster) (i j : ID) :
    clusterLookup (abandonInCluster c i) j =
      if i = j then (clusterLookup c i).map stripConfigSyncMetadata
      else clusterLookup c j := by
  induction c with
  | nil => simp [abandonInCluster, clusterLookup]
  | cons kv rest ih =>
    obtain ⟨k, o⟩ := kv
    by_cases hk : k = i
    · subst hk
      by_cases hj : k = j
      · subst hj
        simp [abandonInCluster, clusterLookup]
      · simp [abandonInCluster, clusterLookup, hj, ih,
          fun hcontra : k = j => hj hcontra]
    · by_cases hj : k = j
      · subst hj
        have hij : ¬i = k := fun hcontra => hk hcontra.symm
        simp [abandonInCluster, clusterLookup, hk, hij]
      · simp [abandonInCluster, clusterLookup, hk, hj, ih]

lemma lifecycleDeleteKey_not_management : lifecycleDeleteKey ∉ managementAnnotKeys := by
  decide

/-- C4: for every live object whose prune is skipped because of the
prevent-deletion lifecycle annotation (the abandon path), the pass removes
exactly the management-owned annotations and labels from the live object and
changes nothing else: all user-authored annotations/labels, all other fields,
and the lifecycle annotation itself are preserved; the object is not deleted,
its status is Strategy=Delete / Actuation=Skipped, and no error is reported
for it. Every other live object is untouched. -/
theorem abandon_spec (st : PassState) (obj live : KubeObject)
    (h : clusterLookup st.cluster obj.id = some live) :
    (processPruneEvent st .skipped obj (some .preventDeletionLifecycle)).2 = none ∧
      osmLookup
          (processPruneEvent st .skipped obj
            (some .preventDeletionLifecycle)).1.statusMap obj.id =
        some { strategy := .delete, actuation := .skipped, reconcile := .pending } ∧
      clusterLookup
          (processPruneEvent st .skipped obj
            (some .preventDeletionLifecycle)).1.cluster obj.id =
        some (stripConfigSyncMetadata live) ∧
      (∀ id', id' ≠ obj.id →
        clusterLookup
            (processPruneEvent st .skipped obj
              (some .preventDeletionLifecycle)).1.cluster id' =
          clusterLookup st.cluster id') ∧
      (∀ k, k ∉ managementAnnotKeys →
        metaLookup (stripConfigSyncMetadata live).annots k = metaLookup live.annots k) ∧
      (∀ k, k ∈ managementAnnotKeys →
        metaLookup (stripConfigSyncMetadata live).annots k = none) ∧
      (∀ k, k ∉ managementLabelKeys →
        metaLookup (stripConfigSyncMetadata live).labels k = metaLookup live.labels k) ∧
      (∀ k, k ∈ managementLabelKeys →
        metaLookup (stripConfigSyncMetadata live).labels k = none) ∧
      metaLookup (stripConfigSyncMetadata live).annots lifecycleDeleteKey =
        metaLookup live.annots lifecycleDeleteKey ∧
      (stripConfigSyncMetadata live).fields = live.fields ∧
      (stripConfigSyncMetadata live).gvk = live.gvk ∧
      (stripConfigSyncMetadata live).nspace = live.nspace ∧
      (stripConfigSyncMetadata live).name = live.name := by
  have hcluster :
      (processPruneEvent st .skipped obj
          (some .preventDeletionLifecycle)).1.cluster =
        abandonInCluster st.cluster obj.id := rfl
  refine ⟨rfl, ?_, ?_, ?_, ?_, ?_, ?_, ?_, ?_, rfl, rfl, rfl, rfl⟩
  · simp [processPruneEvent, osmLookup_osmSet, actuationOfPrune]
  · rw [hcluster, clusterLookup_abandonInCluster]
    simp [h]
  · intro id' hne
    rw [hcluster, clusterLookup_abandonInCluster,
      if_neg (fun hcontra => hne (Eq.symm hcontra))]
  · intro k hk
    simp [stripConfigSyncMetadata, metaLookup_removeKeys, hk]
  · intro k hk
    simp [stripConfigSyncMetadata, metaLookup_removeKeys, hk]
  · intro k hk
    simp [stripConfigSyncMetadata, metaLookup_removeKeys, hk]
  · intro k hk
    simp [stripConfigSyncMetadata, metaLookup_removeKeys, hk]
  · simp [stripConfigSyncMetadata, metaLookup_removeKeys,
      lifecycleDeleteKey_not_management]

/-- Witness for C4: a live deployment carrying the lifecycle annotation, one
user annotation, the management metadata, and one user label. -/
theorem abandon_spec_witness :
    (clusterLookup
        [(KubeObject.id
            { gvk := { group := "apps", version := "v1", kind := "Deployment" },
              nspace := "test-namespace", name := "abandon-me", annots := [],
              labels := [], fields := [] },
          { gvk := { group := "apps", version := "v1", kind := "Deployment" },
            nspace := "test-namespace", name := "abandon-me",
            annots := [(lifecycleDeleteKey, "detach"),
              (managementModeKey, "enabled"), (resourceManagerKey, "rs"),
              ("example-to-not-delete", "anything")],
            labels := [(managedByKey, "configmanagement.gke.io"),
              ("example-to-not-delete", "anything")],
            fields := [("spec.replicas", "3")] })]
        (KubeObject.id
          { gvk := { group := "apps", version := "v1", kind := "Deployment" },
            nspace := "test-namespace", name := "abandon-me", annots := [],
            labels := [], fields := [] }) =
      some
        { gvk := { group := "apps", version := "v1", kind := "Deployment" },
          nspace := "test-namespace", name := "abandon-me",
          annots := [(lifecycleDeleteKey, "detach"),
            (managementModeKey, "enabled"), (resourceManagerKey, "rs"),
            ("example-to-not-delete", "anything")],
          labels := [(managedByKey, "configmanagement.gke.io"),
            ("example-to-not-delete", "anything")],
          fields := [("spec.replicas", "3")] }) ∧
      (processPruneEvent
          (initialState { declared := [], ignored := [] }
            [(KubeObject.id
                { gvk := { group := "apps", version := "v1", kind := "Deployment" },
                  nspace := "test-namespace", name := "abandon-me", annots := [],
                  labels := [], fields := [] },
              { gvk := { group := "apps", version := "v1", kind := "Deployment" },
                nspace := "test-namespace", name := "abandon-me",
                annots := [(lifecycleDeleteKey, "detach"),
                  (managementModeKey, "enabled"), (resourceManagerKey, "rs"),
                  ("example-to-not-delete", "anything")],
                labels := [(managedByKey, "configmanagement.gke.io"),
                  ("example-to-not-delete", "anything")],
                fields := [("spec.replicas", "3")] })])
          .skipped
          { gvk := { group := "apps", version := "v1", kind := "Deployment" },
            nspace := "test-namespace", name := "abandon-me", annots := [],
            labels := [], fields := [] }
          (some .preventDeletionLifecycle)).2 = none ∧
      metaLookup
          (stripConfigSyncMetadata
            { gvk := { group := "apps", version := "v1", kind := "Deployment" },
              nspace := "test-namespace", name := "abandon-me",
              annots := [(lifecycleDeleteKey, "detach"),
                (managementModeKey, "enabled"), (resourceManagerKey, "rs"),
                ("example-to-not-delete", "anything")],
              labels := [(managedByKey, "configmanagement.gke.io"),
                ("example-to-not-delete", "anything")],
              fields := [("spec.replicas", "3")] }).annots lifecycleDeleteKey =
        metaLookup
          (KubeObject.annots
            { gvk := { group := "apps", version := "v1", kind := "Deployment" },
              nspace := "test-namespace", name := "abandon-me",
              annots := [(lifecycleDeleteKey, "detach"),
                (managementModeKey, "enabled"), (resourceManagerKey, "rs"),
                ("example-to-not-delete", "anything")],
              labels := [(managedByKey, "configmanagement.gke.io"),
                ("example-to-not-delete", "anything")],
              fields := [("spec.replicas", "3")] }) lifecycleDeleteKey := by
  have happ := (abandon_spec
      (initialState { declared := [], ignored := [] }
        [(KubeObject.id
            { gvk := { group := "apps", version := "v1", kind := "Deployment" },
              nspace := "test-namespace", name := "abandon-me", annots := [],
              labels := [], fields := [] },
          { gvk := { group := "apps", version := "v1", kind := "Deployment" },
            nspace := "test-namespace", name := "abandon-me",
            annots := [(lifecycleDeleteKey, "detach"),
              (managementModeKey, "enabled"), (resourceManagerKey, "rs"),
              ("example-to-not-delete", "anything")],
            labels := [(managedByKey, "configmanagement.gke.io"),
              ("example-to-not-delete", "anything")],
            fields := [("spec.replicas", "3")] })])
      { gvk := { group := "apps", version := "v1", kind := "Deployment" },
        nspace := "test-namespace", name := "abandon-me", annots := [],
        labels := [], fields := [] }
      { gvk := { group := "apps", version := "v1", kind := "Deployment" },
        nspace := "test-namespace", name := "abandon-me",
        annots := [(lifecycleDeleteKey, "detach"),
          (managementModeKey, "enabled"), (resourceManagerKey, "rs"),
          ("example-to-not-delete", "anything")],
        labels := [(managedByKey, "configmanagement.gke.io"),
          ("example-to-not-delete", "anything")],
        fields := [("spec.replicas", "3")] }
      (by decide))
  exact ⟨by decide, happ.1, happ.2.2.2.2.2.2.2.2.1⟩

/-- C6: for every ApplySkipped event whose cause is an
inventory-policy-prevented-actuation error, the pass produces a
ManagementConflictError that names the detected foreign manager of the object
(the manager recorded in its manager annotation), sets that object's status to
Strategy=Apply / Actuation=Skipped, and leaves the status of every other
object in the same pass unaffected (a later Pending event for another object
still records Pending). -/
theorem conflict_skip_spec (invID : ID) (st : PassState) (obj obj2 : KubeObject)
    (h : obj.id ≠ obj2.id) :
    (processEvents invID false
        [.applyEv .skipped obj (some .policyPreventedActuation),
          .applyEv .pending obj2 none] st).2 =
      [.managementConflictError obj.id
        ((metaLookup obj.annots resourceManagerKey).getD "")] ∧
      osmLookup (processEvents invID false
            [.applyEv .skipped obj (some .policyPreventedActuation),
              .applyEv .pending obj2 none] st).1.statusMap obj.id =
        some { strategy := .apply, actuation := .skipped, reconcile := .pending } ∧
      osmLookup (processEvents invID false
            [.applyEv .skipped obj (some .policyPreventedActuation),
              .applyEv .pending obj2 none] st).1.statusMap obj2.id =
        some { strategy := .apply, actuation := .pending, reconcile := .pending } ∧
      (∀ id', id' ≠ obj.id → id' ≠ obj2.id →
        osmLookup (processEvents invID false
              [.applyEv .skipped obj (some .policyPreventedActuation),
                .applyEv .pending obj2 none] st).1.statusMap id' =
          osmLookup st.statusMap id') := by
  have hmap : (processEvents invID false
        [.applyEv .skipped obj (some .policyPreventedActuation),
          .applyEv .pending obj2 none] st).1.statusMap =
      osmSet (osmSet st.statusMap obj.id
          { strategy := .apply, actuation := .skipped, reconcile := .pending })
        obj2.id
        { strategy := .apply, actuation := .pending, reconcile := .pending } := rfl
  refine ⟨rfl, ?_, ?_, ?_⟩
  · rw [hmap, osmLookup_osmSet,
      if_neg (fun hcontra => h (Eq.symm hcontra)), osmLookup_osmSet, if_pos rfl]
  · rw [hmap, osmLookup_osmSet, if_pos rfl]
  · intro id' h1 h2
    rw [hmap, osmLookup_osmSet,
      if_neg (fun hcontra => h2 (Eq.symm hcontra)), osmLookup_osmSet,
      if_neg (fun hcontra => h1 (Eq.symm hcontra))]

/-- Witness for C6: a conflict-skip for one namespace followed by a pending
apply of a second namespace. -/
theorem conflict_skip_spec_witness :
    (KubeObject.id
        { gvk := { group := "", version := "v1", kind := "Namespace" },
          nspace := "", name := "test-1",
          annots := [(resourceManagerKey, "other-reconciler")], labels := [],
          fields := [] } ≠
      KubeObject.id
        { gvk := { group := "", version := "v1", kind := "Namespace" },
          nspace := "", name := "test-2", annots := [], labels := [],
          fields := [] }) ∧
      (processEvents
          { groupKind := { group := "kpt.dev", kind := "ResourceGroup" },
            key := { nspace := "config-management-system", name := "rs" } }
          false
          [.applyEv .skipped
              { gvk := { group := "", version := "v1", kind := "Namespace" },
                nspace := "", name := "test-1",
                annots := [(resourceManagerKey, "other-reconciler")],
                labels := [], fields := [] }
              (some .policyPreventedActuation),
            .applyEv .pending
              { gvk := { group := "", version := "v1", kind := "Namespace" },
                nspace := "", name := "test-2", annots := [], labels := [],
                fields := [] }
              none]
          (initialState { declared := [], ignored := [] } [])).2 =
        [.managementConflictError
          (KubeObject.id
            { gvk := { group := "", version := "v1", kind := "Namespace" },
              nspace := "", name := "test-1",
              annots := [(resourceManagerKey, "other-reconciler")], labels := [],
              fields := [] })
          ((metaLookup
              (KubeObject.annots
                { gvk := { group := "", version := "v1", kind := "Namespace" },
                  nspace := "", name := "test-1",
                  annots := [(resourceManagerKey, "other-reconciler")],
                  labels := [], fields := [] })
              resourceManagerKey).getD "")] := by
  have hne :
      KubeObject.id
          { gvk := { group := "", version := "v1", kind := "Namespace" },
            nspace := "", name := "test-1",
            annots := [(resourceManagerKey, "other-reconciler")], labels := [],
            fields := [] } ≠
        KubeObject.id
          { gvk := { group := "", version := "v1", kind := "Namespace" },
            nspace := "", name := "test-2", annots := [], labels := [],
            fields := [] } := by decide
  exact ⟨hne,
    (conflict_skip_spec
      { groupKind := { group := "kpt.dev", kind := "ResourceGroup" },
        key := { nspace := "config-management-system", name := "rs" } }
      (initialState { declared := [], ignored := [] } [])
      { gvk := { group := "", version := "v1", kind := "Namespace" },
        nspace := "", name := "test-1",
        annots := [(resourceManagerKey, "other-reconciler")], labels := [],
        fields := [] }
      { gvk := { group := "", version := "v1", kind := "Namespace" },
        nspace := "", name := "test-2", annots := [], labels := [], fields := [] }
      hne).1⟩

/-- The actuation recorded by an event, when it is an apply or prune event:
the object's identity, the strategy, and the actuation outcome. -/
def actuationOutcome : Event → Option (ID × ActuationStrategy × ActuationStatus)
  | .applyEv s o _ => some (o.id, .apply, actuationOfApply s)
  | .pruneEv s o _ => some (o.id, .delete, actuationOfPrune s)
  | .waitEv _ _ => none
  | .errorEv _ => none

/-- The identity targeted by an event, when it is a wait event. -/
def waitTarget : Event → Option ID
  | .waitEv _ i => some i
  | _ => none

/-- The strategy and actuation recorded by the last apply or prune event for
the given identity in the stream, if any. -/
def lastActuation (id : ID) : List Event → Option (ActuationStrategy × ActuationStatus)
  | [] => none
  | ev :: rest =>
    match lastActuation id rest with
    | some sa => some sa
    | none =>
      match actuationOutcome ev with
      | some (i, sa) => if i = id then some sa else none
      | none => none

/-- Strategy/actuation projection of an optional status entry, using the
zero-valued entry when absent. -/
def saOrDefault : Option ObjectStatus → ActuationStrategy × ActuationStatus
  | some e => (e.strategy, e.actuation)
  | none => (.apply, .pending)

lemma processApplyEvent_statusMap (st : PassState) (s : ApplyEventStatus)
    (o : KubeObject) (c : Option EventCause) :
    (processApplyEvent st s o c).1.statusMap =
      osmSet st.statusMap o.id
        { strategy := .apply, actuation := actuationOfApply s, reconcile := .pending } := by
  simp only [processApplyEvent]
  split <;> first
  | rfl
  | (split <;> rfl)

lemma processPruneEvent_statusMap (st : PassState) (s : PruneEventStatus)
    (o : KubeObject) (c : Option EventCause) :
    (processPruneEvent st s o c).1.statusMap =
      osmSet st.statusMap o.id
        { strategy := .delete, actuation := actuationOfPrune s, reconcile := .pending } := by
  simp only [processPruneEvent]
  split <;> first
  | rfl
  | (split <;> rfl)

lemma processEvent_statusMap (invID : ID) (isDestroy : Bool) (st : PassState)
    (ev : Event) (j : ID) :
    osmLookup (processEvent invID isDestroy st ev).1.statusMap j =
      (match ev with
       | .applyEv s o _ =>
         if o.id = j then
           some { strategy := .apply, actuation := actuationOfApply s, reconcile := .pending }
         else osmLookup st.statusMap j
       | .pruneEv s o _ =>
         if o.id = j then
           some { strategy := .delete, actuation := actuationOfPrune s, reconcile := .pending }
         else osmLookup st.statusMap j
       | .waitEv s i =>
         if i = j then
           some (setReconcileEntry (osmLookup st.statusMap i) (reconcileOfWait s))
         else osmLookup st.statusMap j
       | .errorEv _ => osmLookup st.statusMap j) := by
  cases ev with
  | applyEv s o c =>
    simp only [processEvent, processApplyEvent_statusMap, osmLookup_osmSet]
  | pruneEv s o c =>
    simp only [processEvent, processPruneEvent_statusMap, osmLookup_osmSet]
  | waitEv s i =>
    simp only [processEvent, processWaitEvent, osmLookup_osmSetReconcile]
  | errorEv c => rfl

lemma processEvent_error (invID : ID) (isDestroy : Bool) (st : PassState) (ev : Event) :
    (processEvent invID isDestroy st ev).2 = eventErrorOf invID isDestroy ev := by
  cases ev <;> rfl

lemma processEvents_errors (invID : ID) (isDestroy : Bool) (events : List Event) :
    ∀ st : PassState, (processEvents invID isDestroy events st).2 =
      events.filterMap (eventErrorOf invID isDestroy) := by
  induction events with
  | nil => intro st; rfl
  | cons ev rest ih =>
    intro st
    simp only [processEvents, List.filterMap_cons, processEvent_error, ih]
    cases h : eventErrorOf invID isDestroy ev <;> simp [h]

lemma processApplyEvent_stats (st : PassState) (s : ApplyEventStatus)
    (o : KubeObject) (c : Option EventCause) :
    (processApplyEvent st s o c).1.stats = addApplyStat st.stats s := by
  simp only [processApplyEvent]
  split <;> first
  | rfl
  | (split <;> rfl)

lemma processPruneEvent_stats (st : PassState) (s : PruneEventStatus)
    (o : KubeObject) (c : Option EventCause) :
    (processPruneEvent st s o c).1.stats = addPruneStat st.stats s := by
  simp only [processPruneEvent]
  split <;> first
  | rfl
  | (split <;> rfl)

lemma addApplyStat_total (st : SyncStats) (s : ApplyEventStatus) :
    (addApplyStat st s).total = st.total + 1 := by
  cases s <;> simp [addApplyStat, SyncStats.total] <;> omega

lemma addPruneStat_total (st : SyncStats) (s : PruneEventStatus) :
    (addPruneStat st s).total = st.total + 1 := by
  cases s <;> simp [addPruneStat, SyncStats.total] <;> omega

lemma addWaitStat_total (st : SyncStats) (s : WaitEventStatus) :
    (addWaitStat st s).total = st.total + 1 := by
  cases s <;> simp [addWaitStat, SyncStats.total] <;> omega

lemma processEvent_total (invID : ID) (isDestroy : Bool) (st : PassState) (ev : Event) :
    (processEvent invID isDestroy st ev).1.stats.total = st.stats.total + 1 := by
  cases ev with
  | applyEv s o c => simp [processEvent, processApplyEvent_stats, addApplyStat_total]
  | pruneEv s o c => simp [processEvent, processPruneEvent_stats, addPruneStat_total]
  | waitEv s i => simp [processEvent, processWaitEvent, addWaitStat_total]
  | errorEv c =>
    simp [processEvent, processErrorEvent, SyncStats.total]
    omega

lemma processEvents_total (invID : ID) (isDestroy : Bool) (events : List Event) :
    ∀ st : PassState, (processEvents invID isDestroy events st).1.stats.total =
      st.stats.total + events.length := by
  induction events with
  | nil => intro st; simp [processEvents]
  | cons ev rest ih =>
    intro st
    simp only [processEvents]
    rw [ih, processEvent_total]
    simp [List.length_cons]
    omega

lemma processEvent_lookup_some (invID : ID) (isDestroy : Bool) (st : PassState)
    (ev : Event) (id : ID) (e : ObjectStatus)
    (h : osmLookup st.statusMap id = some e) :
    ∃ e', osmLookup (processEvent invID isDestroy st ev).1.statusMap id = some e' := by
  rw [processEvent_statusMap]
  cases ev with
  | applyEv s o c => by_cases ho : o.id = id <;> simp [ho, h]
  | pruneEv s o c => by_cases ho : o.id = id <;> simp [ho, h]
  | waitEv s i => by_cases hi : i = id <;> simp [hi, h]
  | errorEv c => exact ⟨e, h⟩

lemma processEvents_lookup_some (invID : ID) (isDestroy : Bool) (id : ID) :
    ∀ (events : List Event) (st : PassState) (e : ObjectStatus),
      osmLookup st.statusMap id = some e →
      ∃ e', osmLookup (processEvents invID isDestroy events st).1.statusMap id = some e' := by
  intro events
  induction events with
  | nil => intro st e h; exact ⟨e, h⟩
  | cons ev rest ih =>
    intro st e h
    obtain ⟨e1, he1⟩ := processEvent_lookup_some invID isDestroy st ev id e h
    simp only [processEvents]
    exact ih _ e1 he1

lemma processEvent_saOrDefault (invID : ID) (isDestroy : Bool) (st : PassState)
    (ev : Event) (id : ID)
    (h : ∀ i sa, actuationOutcome ev = some (i, sa) → i ≠ id) :
    saOrDefault (osmLookup (processEvent invID isDestroy st ev).1.statusMap id) =
      saOrDefault (osmLookup st.statusMap id) := by
  rw [processEvent_statusMap]
  cases ev with
  | applyEv s o c =>
    have ho : o.id ≠ id := h o.id _ rfl
    simp [ho]
  | pruneEv s o c =>
    have ho : o.id ≠ id := h o.id _ rfl
    simp [ho]
  | waitEv s i =>
    by_cases hi : i = id
    · subst hi
      cases hlk : osmLookup st.statusMap i <;>
        simp [hlk, setReconcileEntry, saOrDefault]
    · simp [hi]
  | errorEv c => rfl

lemma lastActuation_cons_none (id : ID) (ev : Event) (rest : List Event)
    (h : lastActuation id (ev :: rest) = none) :
    lastActuation id rest = none ∧
      (∀ i sa, actuationOutcome ev = some (i, sa) → i ≠ id) := by
  rw [lastActuation] at h
  cases hrest : lastActuation id rest with
  | some sa =>
    rw [hrest] at h
    exact Option.noConfusion h
  | none =>
    rw [hrest] at h
    refine ⟨rfl, ?_⟩
    intro i sa hout hcontra
    rw [hout] at h
    have h' : (if i = id then some sa else none) = none := h
    rw [if_pos hcontra] at h'
    exact Option.noConfusion h'

lemma processEvents_saOrDefault (invID : ID) (isDestroy : Bool) (id : ID) :
    ∀ (events : List Event) (st : PassState), lastActuation id events = none →
      saOrDefault (osmLookup (processEvents invID isDestroy events st).1.statusMap id) =
        saOrDefault (osmLookup st.statusMap id) := by
  intro events
  induction events with
  | nil => intro st _; rfl
  | cons ev rest ih =>
    intro st h
    obtain ⟨hrest, hhead⟩ := lastActuation_cons_none id ev rest h
    simp only [processEvents]
    rw [ih _ hrest, processEvent_saOrDefault invID isDestroy st ev id hhead]

lemma processEvent_lookup_actuation (invID : ID) (isDestroy : Bool) (st : PassState)
    (ev : Event) (i : ID) (sa : ActuationStrategy × ActuationStatus)
    (h : actuationOutcome ev = some (i, sa)) :
    osmLookup (processEvent invID isDestroy st ev).1.statusMap i =
      some { strategy := sa.1, actuation := sa.2, reconcile := .pending } := by
  cases ev with
  | applyEv s o c =>
    simp only [actuationOutcome, Option.some.injEq, Prod.mk.injEq] at h
    obtain ⟨h1, h2⟩ := h
    rw [processEvent_statusMap, ← h1, ← h2]
    simp
  | pruneEv s o c =>
    simp only [actuationOutcome, Option.some.injEq, Prod.mk.injEq] at h
    obtain ⟨h1, h2⟩ := h
    rw [processEvent_statusMap, ← h1, ← h2]
    simp
  | waitEv s j => exact absurd h (by simp [actuationOutcome])
  | errorEv c => exact absurd h (by simp [actuationOutcome])

lemma processEvents_lastActuation (invID : ID) (isDestroy : Bool) (id : ID) :
    ∀ (events : List Event) (st : PassState) (sa : ActuationStrategy × ActuationStatus),
      lastActuation id events = some sa →
      ∃ e, osmLookup (processEvents invID isDestroy events st).1.statusMap id = some e ∧
        e.strategy = sa.1 ∧ e.actuation = sa.2 := by
  intro events
  induction events with
  | nil => intro st sa h; exact absurd h (by simp [lastActuation])
  | cons ev rest ih =>
    intro st sa h
    rw [lastActuation] at h
    cases hrest : lastActuation id rest with
    | some sa' =>
      rw [hrest] at h
      have hsa : sa' = sa := Option.some.inj h
      subst hsa
      simp only [processEvents]
      exact ih _ sa' hrest
    | none =>
      rw [hrest] at h
      cases hev : actuationOutcome ev with
      | none =>
        rw [hev] at h
        exact Option.noConfusion h
      | some p =>
        obtain ⟨i, sa'⟩ := p
        rw [hev] at h
        have h' : (if i = id then some sa' else none) = some sa := h
        by_cases hi : i = id
        · rw [if_pos hi] at h'
          have hsa : sa' = sa := Option.some.inj h'
          subst hsa
          subst hi
          have hstep := processEvent_lookup_actuation invID isDestroy st ev i sa' hev
          obtain ⟨e', he'⟩ :=
            processEvents_lookup_some invID isDestroy i rest _ _ hstep
          have hpres := processEvents_saOrDefault invID isDestroy i rest
            (processEvent invID isDestroy st ev).1 hrest
          rw [he', hstep] at hpres
          simp only [saOrDefault, Prod.mk.injEq] at hpres
          simp only [processEvents]
          exact ⟨e', he', hpres.1, hpres.2⟩
        · rw [if_neg hi] at h'
          exact Option.noConfusion h'

/-- C2: for every event stream consumed by one Apply pass, a Failed (or
Skipped) event for one object does not stop processing: every subsequent
event in the stream is still processed (the stats count every event), the
returned ObjectStatusMap contains an entry with the correct Strategy and
Actuation for every object that had an actuation event, and all per-object
errors are accumulated into a single combined error list rather than only the
first error being surfaced. -/
theorem apply_pass_spec (invID : ID) (isDestroy : Bool) (events : List Event)
    (st : PassState) (id : ID) (sa : ActuationStrategy × ActuationStatus)
    (h : lastActuation id events = some sa) :
    (processEvents invID isDestroy events st).2 =
      events.filterMap (eventErrorOf invID isDestroy) ∧
      (processEvents invID isDestroy events st).1.stats.total =
        st.stats.total + events.length ∧
      ∃ e, osmLookup (processEvents invID isDestroy events st).1.statusMap id = some e ∧
        e.strategy = sa.1 ∧ e.actuation = sa.2 :=
  ⟨processEvents_errors invID isDestroy events st,
    processEvents_total invID isDestroy events st,
    processEvents_lastActuation invID isDestroy id events st sa h⟩

/-- A small test fixture object of the Test kind, mirroring the test suite's
newTestObj. -/
def testFixtureObj (name : String) : KubeObject :=
  { gvk := { group := "configsync.test", version := "v1", kind := "Test" },
    nspace := "test-namespace", name := name,
    annots := [(sourcePathKey, "foo/test.yaml")], labels := [], fields := [] }

/-- The inventory (sync) identity used by witness statements. -/
def inventoryFixtureID : ID :=
  { groupKind := { group := "kpt.dev", kind := "ResourceGroup" },
    key := { nspace := "config-management-system", name := "rs" } }

/-- A pass state with empty status map, zero counters, empty store, and empty
cluster. -/
def emptyPassState : PassState :=
  initialState { declared := [], ignored := [] } []

/-- Witness for C2: a stream with two failed applies, a pending apply, and a
successful prune; the second failed object's final status is Apply/Failed and
both errors are surfaced. -/
theorem apply_pass_spec_witness :
    lastActuation (testFixtureObj "test-2").id
        [.applyEv .failed (testFixtureObj "test-1")
            (some (.unknownTypeError "unknown type")),
          .applyEv .failed (testFixtureObj "test-2")
            (some (.applyRunError "failed apply")),
          .applyEv .pending (testFixtureObj "test-3") none,
          .pruneEv .successful (testFixtureObj "test-4") none] =
      some (.apply, .failed) ∧
      ((processEvents inventoryFixtureID false
          [.applyEv .failed (testFixtureObj "test-1")
              (some (.unknownTypeError "unknown type")),
            .applyEv .failed (testFixtureObj "test-2")
              (some (.applyRunError "failed apply")),
            .applyEv .pending (testFixtureObj "test-3") none,
            .pruneEv .successful (testFixtureObj "test-4") none]
          emptyPassState).2 =
        ([.applyEv .failed (testFixtureObj "test-1")
            (some (.unknownTypeError "unknown type")),
          .applyEv .failed (testFixtureObj "test-2")
            (some (.applyRunError "failed apply")),
          .applyEv .pending (testFixtureObj "test-3") none,
          .pruneEv .successful (testFixtureObj "test-4") none] : List Event).filterMap
          (eventErrorOf inventoryFixtureID false) ∧
        (processEvents inventoryFixtureID false
            [.applyEv .failed (testFixtureObj "test-1")
                (some (.unknownTypeError "unknown type")),
              .applyEv .failed (testFixtureObj "test-2")
                (some (.applyRunError "failed apply")),
              .applyEv .pending (testFixtureObj "test-3") none,
              .pruneEv .successful (testFixtureObj "test-4") none]
            emptyPassState).1.stats.total =
          emptyPassState.stats.total +
            ([.applyEv .failed (testFixtureObj "test-1")
                (some (.unknownTypeError "unknown type")),
              .applyEv .failed (testFixtureObj "test-2")
                (some (.applyRunError "failed apply")),
              .applyEv .pending (testFixtureObj "test-3") none,
              .pruneEv .successful (testFixtureObj "test-4") none] : List Event).length ∧
        ∃ e, osmLookup (processEvents inventoryFixtureID false
              [.applyEv .failed (testFixtureObj "test-1")
                  (some (.unknownTypeError "unknown type")),
                .applyEv .failed (testFixtureObj "test-2")
                  (some (.applyRunError "failed apply")),
                .applyEv .pending (testFixtureObj "test-3") none,
                .pruneEv .successful (testFixtureObj "test-4") none]
              emptyPassState).1.statusMap (testFixtureObj "test-2").id = some e ∧
          e.strategy = (ActuationStrategy.apply, ActuationStatus.failed).1 ∧
          e.actuation = (ActuationStrategy.apply, ActuationStatus.failed).2) :=
  ⟨by decide,
    apply_pass_spec inventoryFixtureID false
      [.applyEv .failed (testFixtureObj "test-1")
          (some (.unknownTypeError "unknown type")),
        .applyEv .failed (testFixtureObj "test-2")
          (some (.applyRunError "failed apply")),
        .applyEv .pending (testFixtureObj "test-3") none,
        .pruneEv .successful (testFixtureObj "test-4") none]
      emptyPassState (testFixtureObj "test-2").id (.apply, .failed) (by decide)⟩

lemma lastActuation_mem (id : ID) :
    ∀ (l : List Event) (sa : ActuationStrategy × ActuationStatus),
      lastActuation id l = some sa →
      id ∈ (l.filterMap actuationOutcome).map (fun t => t.1) := by
  intro l
  induction l with
  | nil =>
    intro sa h
    exact Option.noConfusion h
  | cons ev rest ih =>
    intro sa h
    rw [lastActuation] at h
    cases hrest : lastActuation id rest with
    | some sa' =>
      have hm := ih sa' hrest
      cases hev : actuationOutcome ev with
      | none => simpa [List.filterMap_cons, hev] using hm
      | some p =>
        simp only [List.filterMap_cons, hev, List.map_cons, List.mem_cons]
        exact Or.inr hm
    | none =>
      rw [hrest] at h
      cases hev : actuationOutcome ev with
      | none =>
        rw [hev] at h
        exact Option.noConfusion h
      | some p =>
        obtain ⟨i, sa'⟩ := p
        rw [hev] at h
        have h' : (if i = id then some sa' else none) = some sa := h
        by_cases hi : i = id
        · simp [List.filterMap_cons, hev, hi]
        · rw [if_neg hi] at h'
          exact Option.noConfusion h'

lemma lastActuation_none_of_not_mem (id : ID) (l : List Event)
    (h : id ∉ (l.filterMap actuationOutcome).map (fun t => t.1)) :
    lastActuation id l = none := by
  cases hl : lastActuation id l with
  | none => rfl
  | some sa => exact absurd (lastActuation_mem id l sa hl) h

lemma processEvents_fst_append (invID : ID) (isDestroy : Bool) :
    ∀ (l1 l2 : List Event) (st : PassState),
      (processEvents invID isDestroy (l1 ++ l2) st).1 =
        (processEvents invID isDestroy l2 (processEvents invID isDestroy l1 st).1).1 := by
  intro l1
  induction l1 with
  | nil => intro l2 st; rfl
  | cons ev rest ih =>
    intro l2 st
    simp only [List.cons_append, processEvents]
    exact ih l2 _

lemma processEvent_statusMap_applyEv (invID : ID) (isDestroy : Bool)
    (st : PassState) (s : ApplyEventStatus) (o : KubeObject)
    (c : Option EventCause) (j : ID) :
    osmLookup (processEvent invID isDestroy st (.applyEv s o c)).1.statusMap j =
      (if o.id = j then
        some { strategy := .apply, actuation := actuationOfApply s, reconcile := .pending }
      else osmLookup st.statusMap j) :=
  processEvent_statusMap invID isDestroy st (.applyEv s o c) j

lemma processEvent_statusMap_pruneEv (invID : ID) (isDestroy : Bool)
    (st : PassState) (s : PruneEventStatus) (o : KubeObject)
    (c : Option EventCause) (j : ID) :
    osmLookup (processEvent invID isDestroy st (.pruneEv s o c)).1.statusMap j =
      (if o.id = j then
        some { strategy := .delete, actuation := actuationOfPrune s, reconcile := .pending }
      else osmLookup st.statusMap j) :=
  processEvent_statusMap invID isDestroy st (.pruneEv s o c) j

lemma processEvent_statusMap_waitEv (invID : ID) (isDestroy : Bool)
    (st : PassState) (s : WaitEventStatus) (i : ID) (j : ID) :
    osmLookup (processEvent invID isDestroy st (.waitEv s i)).1.statusMap j =
      (if i = j then
        some (setReconcileEntry (osmLookup st.statusMap i) (reconcileOfWait s))
      else osmLookup st.statusMap j) :=
  processEvent_statusMap invID isDestroy st (.waitEv s i) j

lemma processEvent_reconcile_pending (invID : ID) (isDestroy : Bool)
    (st : PassState) (ev : Event) (id : ID)
    (hw : waitTarget ev ≠ some id)
    (h : ∀ e, osmLookup st.statusMap id = some e → e.reconcile = .pending) :
    ∀ e', osmLookup (processEvent invID isDestroy st ev).1.statusMap id = some e' →
      e'.reconcile = .pending := by
  intro e' he'
  cases ev with
  | applyEv s o c =>
    rw [processEvent_statusMap_applyEv] at he'
    by_cases ho : o.id = id
    · rw [if_pos ho] at he'
      cases Option.some.inj he'
      rfl
    · rw [if_neg ho] at he'
      exact h e' he'
  | pruneEv s o c =>
    rw [processEvent_statusMap_pruneEv] at he'
    by_cases ho : o.id = id
    · rw [if_pos ho] at he'
      cases Option.some.inj he'
      rfl
    · rw [if_neg ho] at he'
      exact h e' he'
  | waitEv s i =>
    rw [processEvent_statusMap_waitEv] at he'
    have hi : i ≠ id := fun hcontra => hw (by rw [waitTarget, hcontra])
    rw [if_neg hi] at he'
    exact h e' he'
  | errorEv c => exact h e' he'

lemma processEvents_reconcile_pending (invID : ID) (isDestroy : Bool) (id : ID) :
    ∀ (events : List Event) (st : PassState),
      (∀ ev ∈ events, waitTarget ev ≠ some id) →
      (∀ e, osmLookup st.statusMap id = some e → e.reconcile = .pending) →
      ∀ e', osmLookup (processEvents invID isDestroy events st).1.statusMap id = some e' →
        e'.reconcile = .pending := by
  intro events
  induction events with
  | nil => intro st _ h e' he'; exact h e' he'
  | cons ev rest ih =>
    intro st hall h e' he'
    simp only [processEvents] at he'
    exact ih _ (fun x hx => hall x (by simp [hx]))
      (processEvent_reconcile_pending invID isDestroy st ev id
        (hall ev (by simp)) h) e' he'

/-- C8: within a single pass (whose stream, as guaranteed by the engine,
actuates each object at most once), every object's Actuation status is
monotonic: once an object's Actuation has been set to Failed or Skipped by a
prefix of the stream, no later event overwrites its Actuation (or Strategy)
with a different value; and Reconcile is set only by wait events — when the
stream has no wait event for the object, its Reconcile stays Pending. -/
theorem actuation_monotonic (invID : ID) (isDestroy : Bool) (resources : Resources)
    (cluster : Cluster) (pre post : List Event) (id : ID) (entry : ObjectStatus)
    (hnodup : (((pre ++ post).filterMap actuationOutcome).map (fun t => t.1)).Nodup)
    (hpre : osmLookup (processEvents invID isDestroy pre
        (initialState resources cluster)).1.statusMap id = some entry)
    (hfs : entry.actuation = .failed ∨ entry.actuation = .skipped) :
    (∃ entry', osmLookup (processEvents invID isDestroy (pre ++ post)
          (initialState resources cluster)).1.statusMap id = some entry' ∧
        entry'.actuation = entry.actuation ∧ entry'.strategy = entry.strategy) ∧
      ((∀ ev ∈ pre ++ post, waitTarget ev ≠ some id) →
        ∀ e', osmLookup (processEvents invID isDestroy (pre ++ post)
            (initialState resources cluster)).1.statusMap id = some e' →
          e'.reconcile = .pending) := by
  have hpre_some : lastActuation id pre ≠ none := by
    intro hnone
    have hpres := processEvents_saOrDefault invID isDestroy id pre
      (initialState resources cluster) hnone
    rw [hpre] at hpres
    have hact : entry.actuation = ActuationStatus.pending := congrArg Prod.snd hpres
    rcases hfs with hf | hs
    · rw [hf] at hact
      exact ActuationStatus.noConfusion hact
    · rw [hs] at hact
      exact ActuationStatus.noConfusion hact
  cases hsa : lastActuation id pre with
  | none => exact absurd hsa hpre_some
  | some sa =>
    have hpostnone : lastActuation id post = none := by
      apply lastActuation_none_of_not_mem
      intro hmem
      have hmem_pre := lastActuation_mem id pre sa hsa
      rw [List.filterMap_append, List.map_append] at hnodup
      obtain ⟨-, -, hdisj⟩ := List.nodup_append.mp hnodup
      exact hdisj hmem_pre hmem
    constructor
    · rw [processEvents_fst_append]
      obtain ⟨e', he'⟩ := processEvents_lookup_some invID isDestroy id post
        (processEvents invID isDestroy pre (initialState resources cluster)).1
        entry hpre
      have hpres := processEvents_saOrDefault invID isDestroy id post
        (processEvents invID isDestroy pre (initialState resources cluster)).1
        hpostnone
      rw [he', hpre] at hpres
      simp only [saOrDefault, Prod.mk.injEq] at hpres
      exact ⟨e', he', hpres.2, hpres.1⟩
    · intro hw e' he'
      refine processEvents_reconcile_pending invID isDestroy id (pre ++ post)
        (initialState resources cluster) hw ?_ e' he'
      intro e hcontra
      exact Option.noConfusion hcontra

/-- Witness for C8: a failed apply of one object followed by events for a
second object only. -/
theorem actuation_monotonic_witness :
    (((([.applyEv .failed (testFixtureObj "t1") none] : List Event) ++
          ([.waitEv .reconcileSuccessful (testFixtureObj "t2").id,
            .applyEv .successful (testFixtureObj "t2") none] : List Event)).filterMap
          actuationOutcome).map (fun t => t.1)).Nodup ∧
      osmLookup (processEvents inventoryFixtureID false
          [.applyEv .failed (testFixtureObj "t1") none]
          (initialState { declared := [], ignored := [] } [])).1.statusMap
        (testFixtureObj "t1").id =
        some { strategy := .apply, actuation := .failed, reconcile := .pending } ∧
      ((∃ entry', osmLookup (processEvents inventoryFixtureID false
            (([.applyEv .failed (testFixtureObj "t1") none] : List Event) ++
              ([.waitEv .reconcileSuccessful (testFixtureObj "t2").id,
                .applyEv .successful (testFixtureObj "t2") none] : List Event))
            (initialState { declared := [], ignored := [] } [])).1.statusMap
            (testFixtureObj "t1").id = some entry' ∧
          entry'.actuation = ObjectStatus.actuation
            { strategy := .apply, actuation := .failed, reconcile := .pending } ∧
          entry'.strategy = ObjectStatus.strategy
            { strategy := .apply, actuation := .failed, reconcile := .pending }) ∧
        ((∀ ev ∈ ([.applyEv .failed (testFixtureObj "t1") none] : List Event) ++
              ([.waitEv .reconcileSuccessful (testFixtureObj "t2").id,
                .applyEv .successful (testFixtureObj "t2") none] : List Event),
            waitTarget ev ≠ some (testFixtureObj "t1").id) →
          ∀ e', osmLookup (processEvents inventoryFixtureID false
              (([.applyEv .failed (testFixtureObj "t1") none] : List Event) ++
                ([.waitEv .reconcileSuccessful (testFixtureObj "t2").id,
                  .applyEv .successful (testFixtureObj "t2") none] : List Event))
              (initialState { declared := [], ignored := [] } [])).1.statusMap
              (testFixtureObj "t1").id = some e' →
            e'.reconcile = .pending)) :=
  ⟨by decide, by decide,
    actuation_monotonic inventoryFixtureID false { declared := [], ignored := [] } []
      [.applyEv .failed (testFixtureObj "t1") none]
      [.waitEv .reconcileSuccessful (testFixtureObj "t2").id,
        .applyEv .successful (testFixtureObj "t2") none]
      (testFixtureObj "t1").id
      { strategy := .apply, actuation := .failed, reconcile := .pending }
      (by decide) (by decide) (Or.inl rfl)⟩

end ConfigSync
